import Mathlib

set_option maxRecDepth 4000

/-!
Verification development for the MindMitra memory pipeline
(`src/chatbotAgent/memory_architecture.py` and `src/chatbotAgent/rag_retrieval.py`).

The Python code is shallowly embedded:
* Python floats are modelled by exact rationals (`ℚ`); the constants
  `0.4`, `0.6`, `1.2`, `0.1`, `0.85` become `2/5`, `3/5`, `6/5`, `1/10`, `17/20`.
* The Supabase store is an explicit record of tables; every store call is a
  function from the store to a result plus updated store.  Fallible
  operations (embedding, rpc, insert, update, LLM call) return
  `Except Store (α × Store)`; `Except.error σ` models a Python exception
  escaping with the store in state `σ`, and a `try/except` block is the
  explicit `match` that converts `.error` into the logged-and-`None` result.
* `hashlib.md5` is embedded as the full MD5 algorithm over byte lists
  (RFC 1321), executable so that concrete hashes evaluate by `decide`.
* Python `str.isalpha` / `str.lower` are Unicode aware; the embedding uses
  the ASCII behaviour (`Char.isAlpha`, `Char.toLower`), which coincides with
  Python on the ASCII inputs the claims are about.
-/

/-! ## MD5 (embedding of `hashlib.md5`, RFC 1321) -/

/-- 2^32, the word modulus of MD5. -/
def w32 : Nat := 4294967296

/-- The 64 MD5 sine-derived round constants. -/
def md5K : List Nat :=
  [0xd76aa478, 0xe8c7b756, 0x242070db, 0xc1bdceee,
   0xf57c0faf, 0x4787c62a, 0xa8304613, 0xfd469501,
   0x698098d8, 0x8b44f7af, 0xffff5bb1, 0x895cd7be,
   0x6b901122, 0xfd987193, 0xa679438e, 0x49b40821,
   0xf61e2562, 0xc040b340, 0x265e5a51, 0xe9b6c7aa,
   0xd62f105d, 0x02441453, 0xd8a1e681, 0xe7d3fbc8,
   0x21e1cde6, 0xc33707d6, 0xf4d50d87, 0x455a14ed,
   0xa9e3e905, 0xfcefa3f8, 0x676f02d9, 0x8d2a4c8a,
   0xfffa3942, 0x8771f681, 0x6d9d6122, 0xfde5380c,
   0xa4beea44, 0x4bdecfa9, 0xf6bb4b60, 0xbebfbc70,
   0x289b7ec6, 0xeaa127fa, 0xd4ef3085, 0x04881d05,
   0xd9d4d039, 0xe6db99e5, 0x1fa27cf8, 0xc4ac5665,
   0xf4292244, 0x432aff97, 0xab9423a7, 0xfc93a039,
   0x655b59c3, 0x8f0ccc92, 0xffeff47d, 0x85845dd1,
   0x6fa87e4f, 0xfe2ce6e0, 0xa3014314, 0x4e0811a1,
   0xf7537e82, 0xbd3af235, 0x2ad7d2bb, 0xeb86d391]

/-- The 64 MD5 per-round left-rotation amounts. -/
def md5S : List Nat :=
  [7, 12, 17, 22, 7, 12, 17, 22, 7, 12, 17, 22, 7, 12, 17, 22,
   5, 9, 14, 20, 5, 9, 14, 20, 5, 9, 14, 20, 5, 9, 14, 20,
   4, 11, 16, 23, 4, 11, 16, 23, 4, 11, 16, 23, 4, 11, 16, 23,
   6, 10, 15, 21, 6, 10, 15, 21, 6, 10, 15, 21, 6, 10, 15, 21]

/-- Left-rotation of a 32-bit word. -/
def rotl32 (x s : Nat) : Nat :=
  (x * 2 ^ s + x / 2 ^ (32 - s)) % w32

/-- The MD5 nonlinear round function (F, G, H, I by round quarter). -/
def md5F (i b c d : Nat) : Nat :=
  if i < 16 then (b &&& c) ||| ((b ^^^ 0xffffffff) &&& d)
  else if i < 32 then (d &&& b) ||| ((d ^^^ 0xffffffff) &&& c)
  else if i < 48 then (b ^^^ c) ^^^ d
  else c ^^^ (b ||| (d ^^^ 0xffffffff))

/-- The MD5 message-word index schedule. -/
def md5g (i : Nat) : Nat :=
  if i < 16 then i
  else if i < 32 then (5 * i + 1) % 16
  else if i < 48 then (3 * i + 5) % 16
  else (7 * i) % 16

/-- The four MD5 chaining words. -/
structure MD5State where
  a : Nat
  b : Nat
  c : Nat
  d : Nat
deriving Repr, DecidableEq

/-- One MD5 round given the 16 message words `m`. -/
def md5Round (m : List Nat) (st : MD5State) (i : Nat) : MD5State :=
  let f := (md5F i st.b st.c st.d + st.a + md5K.getD i 0 + m.getD (md5g i) 0) % w32
  ⟨st.d, (st.b + rotl32 f (md5S.getD i 0)) % w32, st.b, st.c⟩

/-- Little-endian decoding of bytes into 32-bit words. -/
def leWords : List Nat → List Nat
  | b0 :: b1 :: b2 :: b3 :: rest =>
      (b0 + 256 * b1 + 65536 * b2 + 16777216 * b3) :: leWords rest
  | _ => []

/-- Compress one 64-byte block into the chaining state. -/
def md5Block (st : MD5State) (blockBytes : List Nat) : MD5State :=
  let m := leWords blockBytes
  let r := (List.range 64).foldl (md5Round m) st
  ⟨(st.a + r.a) % w32, (st.b + r.b) % w32, (st.c + r.c) % w32, (st.d + r.d) % w32⟩

/-- MD5 padding: a `0x80` byte, zeros to 56 mod 64, then the bit length
as a 64-bit little-endian quantity. -/
def md5Pad (msg : List Nat) : List Nat :=
  let len := msg.length
  let k := (119 - len % 64) % 64
  let bitLen := (8 * len) % 2 ^ 64
  msg ++ [0x80] ++ List.replicate k 0 ++
    (List.range 8).map (fun j => bitLen / 256 ^ j % 256)

/-- Process `fuel` consecutive 64-byte blocks (the padded message length is an
exact multiple of 64, so fuel = length / 64 consumes the whole message). -/
def md5Blocks : Nat → MD5State → List Nat → MD5State
  | 0, st, _ => st
  | n + 1, st, l => md5Blocks n (md5Block st (l.take 64)) (l.drop 64)

/-- Little-endian byte serialization of a 32-bit word. -/
def wordLE (x : Nat) : List Nat :=
  [x % 256, x / 256 % 256, x / 65536 % 256, x / 16777216 % 256]

/-- MD5 digest of a byte list, as 16 bytes. -/
def md5Bytes (msg : List Nat) : List Nat :=
  let padded := md5Pad msg
  let fin := md5Blocks (padded.length / 64) ⟨0x67452301, 0xefcdab89, 0x98badcfe, 0x10325476⟩ padded
  wordLE fin.a ++ wordLE fin.b ++ wordLE fin.c ++ wordLE fin.d

/-- Lowercase hexadecimal digit. -/
def hexChar (n : Nat) : Char :=
  if n < 10 then Char.ofNat (48 + n) else Char.ofNat (87 + n)

/-- Lowercase hexadecimal rendering of a byte list. -/
def bytesHex (bs : List Nat) : String :=
  String.mk ((bs.map (fun b => [hexChar (b / 16), hexChar (b % 16)])).flatten)

/-- UTF-8 encoding of one character (embedding of Python `str.encode`). -/
def utf8Char (c : Char) : List Nat :=
  let n := c.toNat
  if n < 128 then [n]
  else if n < 2048 then [192 + n / 64, 128 + n % 64]
  else if n < 65536 then [224 + n / 4096, 128 + n / 64 % 64, 128 + n % 64]
  else [240 + n / 262144, 128 + n / 4096 % 64, 128 + n / 64 % 64, 128 + n % 64]

/-- UTF-8 bytes of a string. -/
def strBytes (s : String) : List Nat :=
  (s.data.map utf8Char).flatten

/-- `hashlib.md5(s.encode()).hexdigest()`: 32 lowercase hex characters. -/
def md5Hex (s : String) : String :=
  bytesHex (md5Bytes (strBytes s))


/-! ## `EpisodicPromoter.compute_pattern_hash`
(`memory_architecture.py` lines 951-970) -/

/-- Python `content.lower()` (ASCII behaviour of `Char.toLower`). -/
def pyLower (s : String) : String :=
  String.mk (s.data.map Char.toLower)

/-- Splitting worker: `cur` holds the characters of the word in progress,
in reverse order. -/
def pySplitAux : List Char → List Char → List String
  | [], cur => if cur.isEmpty then [] else [String.mk cur.reverse]
  | c :: cs, cur =>
      if c.isWhitespace then
        if cur.isEmpty then pySplitAux cs []
        else String.mk cur.reverse :: pySplitAux cs []
      else pySplitAux cs (c :: cur)

/-- Python `str.split()` with no argument: split on whitespace runs,
dropping empty pieces. -/
def pyWords (s : String) : List String :=
  pySplitAux s.data []

/-- Python `w.isalpha()`: nonempty and every character alphabetic. -/
def pyIsAlpha (w : String) : Bool :=
  !w.isEmpty && w.data.all Char.isAlpha

/-- The qualifying words of a content string: words of the lowercased text
with length > 4 that are alphabetic only (before the `[:5]` truncation). -/
def patternQualifying (content : String) : List String :=
  (pyWords (pyLower content)).filter (fun w => w.length > 4 && pyIsAlpha w)

/-- `keywords = [w for w in words if len(w) > 4 and w.isalpha()][:5]`. -/
def patternKeywords (content : String) : List String :=
  (patternQualifying content).take 5

/-- Lexicographic (code-point) comparison of character lists: the order
Python `sorted` uses on strings. -/
def charListLe : List Char → List Char → Bool
  | [], _ => true
  | _ :: _, [] => false
  | c :: cs, d :: ds =>
      if c.toNat < d.toNat then true
      else if d.toNat < c.toNat then false
      else charListLe cs ds

/-- Python's string order, as a proposition usable with `List.insertionSort`. -/
def strLe (a b : String) : Prop :=
  charListLe a.data b.data = true

instance : DecidableRel strLe :=
  fun a b => inferInstanceAs (Decidable (charListLe a.data b.data = true))

/-- Python `sorted` on strings: the ascending lexicographic permutation.
(`insertionSort` over the total antisymmetric order `strLe` produces the
unique sorted permutation, which is what `sorted` returns.) -/
def pySorted (l : List String) : List String :=
  List.insertionSort strLe l

/-- `keywords_str = "_".join(sorted(keywords))`. -/
def keywordsStr (content : String) : String :=
  String.intercalate "_" (pySorted (patternKeywords content))

/-- Python string slicing `s[:n]` (character-wise truncation). -/
def strTake (s : String) (n : Nat) : String :=
  String.mk (s.data.take n)

/-- `EpisodicPromoter.compute_pattern_hash`: first 16 hex characters of the
MD5 of the sorted-keyword string (the episodic dict enters only through its
`content` field, defaulting to the empty string). -/
def compute_pattern_hash (content : String) : String :=
  strTake (md5Hex (keywordsStr content)) 16


/-! ## Data model: store tables
(records mirror the columns the Python code reads and writes; `get`-defaults
such as `access_count = 0` are materialized as fields). -/

/-- A row of the `global_memories` table. -/
structure GlobalMemoryRecord where
  id : Nat
  user_id : String
  memory_type : String
  content : String
  embedding : List ℚ
  confidence_score : ℚ
  worth_saving : Bool
  source_session_ids : List String
  occurrence_count : Nat
  access_count : Nat
  updated_at : Nat
deriving Repr, DecidableEq

/-- A row of the `session_memories` table. -/
structure SessionMemoryRecord where
  id : Nat
  session_id : String
  user_id : String
  memory_type : String
  content : String
  confidence_score : ℚ
  created_at : Nat
deriving Repr, DecidableEq

/-- One entry of an `episodic_tracker.occurrences` JSONB array. -/
structure Occurrence where
  content : String
  session_id : String
  timestamp : Nat
deriving Repr, DecidableEq

/-- A row of the `episodic_tracker` table (`promoted_to_semantic_id` is
nullable; `none` is Python `None`, which is falsy). -/
structure TrackerRecord where
  id : Nat
  user_id : String
  pattern_hash : String
  occurrences : List Occurrence
  occurrence_count : Nat
  promoted_to_semantic_id : Option Nat
deriving Repr, DecidableEq

/-- The mutable Supabase state touched by the write side.  `next_id` models
the id sequence: an insert allocates `next_id` and bumps it. -/
structure Store where
  global_memories : List GlobalMemoryRecord
  session_memories : List SessionMemoryRecord
  episodic_tracker : List TrackerRecord
  next_id : Nat
deriving Repr, DecidableEq

/-- A row returned by the `find_similar_global_memories` RPC (the SQL
function is not in the repository sources; the deduplicator only reads
these fields from each returned row). -/
structure SimRow where
  id : Nat
  similarity : ℚ
  confidence_score : ℚ
  occurrence_count : Nat
  source_session_ids : List String
  access_count : Nat
deriving Repr, DecidableEq

/-- The parsed JSON insight from the promotion LLM call, with the
`parsed.get` defaults already applied (`insight` defaults to
"Repeated pattern observed", `confidence` to 0.7). -/
structure LlmInsight where
  insight : String
  confidence : ℚ
deriving Repr, DecidableEq

/-- A memory candidate dict as consumed by `process_and_save_memory`,
with the `memory.get` defaults materialized (`worth_saving` defaults to
`True`, `confidence` to 0.5, `content` to `""`). -/
structure MemoryCandidate where
  content : String
  confidence : ℚ
  worth_saving : Bool
deriving Repr, DecidableEq

/-- The dict returned by a successful promotion. -/
structure PromotedMemory where
  id : Nat
  content : String
  confidence : ℚ
deriving Repr, DecidableEq

/-- The environment of external collaborators: the embedding service, the
similarity-search RPC, the Gemini model, the clock, and one failure flag per
fallible operation (`true` = that call raises an exception). -/
structure Env where
  embed : String → List ℚ
  embed_fails : Bool
  simSearch : List ℚ → String → String → List SimRow
  rpc_fails : Bool
  global_insert_fails : Bool
  global_update_fails : Bool
  session_insert_fails : Bool
  tracker_query_fails : Bool
  tracker_insert_fails : Bool
  tracker_update_fails : Bool
  llmResult : Option LlmInsight
  now : Nat

/-! ## Primitive store operations.
Each returns `Except Store (α × Store)`; `.error σ` is a raised Python
exception leaving the store in state `σ`. -/

/-- `self.embedding_service.embed_text(content)`. -/
def embed_text (env : Env) (σ : Store) (s : String) : Except Store (List ℚ × Store) :=
  if env.embed_fails then .error σ else .ok (env.embed s, σ)

/-- `self.supabase.rpc('find_similar_global_memories', {...}).execute()`
followed by `similar.data if similar.data else []`. -/
def rpc_find_similar (env : Env) (σ : Store) (emb : List ℚ) (uid mtype : String) :
    Except Store (List SimRow × Store) :=
  if env.rpc_fails then .error σ else .ok (env.simSearch emb uid mtype, σ)

/-- `self.supabase.from_('global_memories').insert({...}).execute()`:
allocates a fresh id, appends the row, returns `result.data[0]['id']`. -/
def insert_global (env : Env) (σ : Store) (uid mtype content : String)
    (emb : List ℚ) (conf : ℚ) (sids : List String) (occ : Nat) :
    Except Store (Nat × Store) :=
  if env.global_insert_fails then .error σ
  else
    let r : GlobalMemoryRecord :=
      { id := σ.next_id, user_id := uid, memory_type := mtype, content := content,
        embedding := emb, confidence_score := conf, worth_saving := true,
        source_session_ids := sids, occurrence_count := occ,
        access_count := 0, updated_at := env.now }
    .ok (σ.next_id,
      { σ with global_memories := σ.global_memories ++ [r], next_id := σ.next_id + 1 })

/-- `.from_('global_memories').update({...}).eq('id', i).execute()` with the
update dict used by the merge branch. -/
def update_global (env : Env) (σ : Store) (i : Nat)
    (conf : ℚ) (occ : Nat) (sids : List String) (acc : Nat) :
    Except Store Store :=
  if env.global_update_fails then .error σ
  else .ok { σ with global_memories := σ.global_memories.map fun g =>
      if g.id = i then
        { g with confidence_score := conf, occurrence_count := occ,
                 source_session_ids := sids, updated_at := env.now,
                 access_count := acc }
      else g }

/-- `.from_('session_memories').insert({...}).execute()`. -/
def insert_session (env : Env) (σ : Store) (sid uid mtype content : String)
    (conf : ℚ) : Except Store (Nat × Store) :=
  if env.session_insert_fails then .error σ
  else
    let r : SessionMemoryRecord :=
      { id := σ.next_id, session_id := sid, user_id := uid, memory_type := mtype,
        content := content, confidence_score := conf, created_at := env.now }
    .ok (σ.next_id,
      { σ with session_memories := σ.session_memories ++ [r], next_id := σ.next_id + 1 })

/-- `.from_('episodic_tracker').select('*')...maybe_single().execute()`:
the single tracker row for `(user_id, pattern_hash)`, if any. -/
def query_tracker (env : Env) (σ : Store) (uid hash : String) :
    Except Store (Option TrackerRecord × Store) :=
  if env.tracker_query_fails then .error σ
  else .ok (σ.episodic_tracker.find? (fun t => t.user_id = uid && t.pattern_hash = hash), σ)

/-- `.from_('episodic_tracker').insert({...}).execute()` for a new pattern. -/
def insert_tracker (env : Env) (σ : Store) (uid hash : String)
    (occs : List Occurrence) : Except Store (Nat × Store) :=
  if env.tracker_insert_fails then .error σ
  else
    let t : TrackerRecord :=
      { id := σ.next_id, user_id := uid, pattern_hash := hash,
        occurrences := occs, occurrence_count := 1, promoted_to_semantic_id := none }
    .ok (σ.next_id,
      { σ with episodic_tracker := σ.episodic_tracker ++ [t], next_id := σ.next_id + 1 })

/-- `.from_('episodic_tracker').update({'occurrences': ..., 'occurrence_count': ...})`. -/
def update_tracker_occ (env : Env) (σ : Store) (i : Nat)
    (occs : List Occurrence) (cnt : Nat) : Except Store Store :=
  if env.tracker_update_fails then .error σ
  else .ok { σ with episodic_tracker := σ.episodic_tracker.map fun t =>
      if t.id = i then { t with occurrences := occs, occurrence_count := cnt } else t }

/-- `.from_('episodic_tracker').update({'promoted_to_semantic_id': ...})`. -/
def update_tracker_promoted (env : Env) (σ : Store) (i : Nat)
    (sem : Option Nat) : Except Store Store :=
  if env.tracker_update_fails then .error σ
  else .ok { σ with episodic_tracker := σ.episodic_tracker.map fun t =>
      if t.id = i then { t with promoted_to_semantic_id := sem } else t }

/-- `generate_content` + `json.loads` + field extraction for the promotion
prompt.  `none` models the call raising or its output failing to parse. -/
def generate_insight (env : Env) (σ : Store) : Except Store (LlmInsight × Store) :=
  match env.llmResult with
  | none => .error σ
  | some r => .ok (r, σ)

/-- The `logger.success(...)` call of `_promote_to_semantic` (line 1109):
the module logger is the stdlib `logging.getLogger(__name__)` (line 24) and
`logging.Logger` has no `success` method, so this call always raises
`AttributeError`.  It sits after the global insert and the tracker update,
whose effects persist; the `return` below it is never reached. -/
def logger_success (σ : Store) : Except Store Unit :=
  .error σ

/-- Python truthiness of the nullable `promoted_to_semantic_id` value as
read by `not existing.get('promoted_to_semantic_id')`: `None` is falsy, and
with ids modelled as integers the id 0 is falsy too. -/
def pyIdTruthy : Option Nat → Bool
  | none => false
  | some i => decide (i ≠ 0)

/-! ## `MemoryDeduplicator` (`memory_architecture.py` lines 756-933) -/

/-- Body of the `try` block of `MemoryDeduplicator._save_global_memory`. -/
def save_global_body (env : Env) (σ : Store) (content : String)
    (embedding : List ℚ) (confidence : ℚ) (memory_type session_id user_id : String) :
    Except Store (Option Nat × Store) :=
  match rpc_find_similar env σ embedding user_id memory_type with
  | .error σ' => .error σ'
  | .ok (similar_mems, σ₁) =>
    match similar_mems with
    | existing :: _ =>
        let old_conf := existing.confidence_score
        let new_conf := min 1 (old_conf * (6/5) + 1/10)
        let new_count := existing.occurrence_count + 1
        let session_ids :=
          if session_id ∈ existing.source_session_ids then existing.source_session_ids
          else existing.source_session_ids ++ [session_id]
        match update_global env σ₁ existing.id new_conf new_count session_ids
            (existing.access_count + 1) with
        | .error σ' => .error σ'
        | .ok σ₂ => .ok (some existing.id, σ₂)
    | [] =>
        match insert_global env σ₁ user_id memory_type content embedding confidence
            [session_id] 1 with
        | .error σ' => .error σ'
        | .ok (mem_id, σ₂) => .ok (some mem_id, σ₂)

/-- `MemoryDeduplicator._save_global_memory`: the body wrapped in its
`try/except` (an exception is logged and becomes a `None` return). -/
def save_global_memory (env : Env) (σ : Store) (content : String)
    (embedding : List ℚ) (confidence : ℚ) (memory_type session_id user_id : String) :
    Option Nat × Store :=
  match save_global_body env σ content embedding confidence memory_type session_id user_id with
  | .ok r => r
  | .error σ' => (none, σ')

/-- Body of the `try` block of `MemoryDeduplicator._save_session_memory`. -/
def save_session_body (env : Env) (σ : Store) (content : String)
    (confidence : ℚ) (memory_type session_id user_id : String) :
    Except Store (Option Nat × Store) :=
  match insert_session env σ session_id user_id memory_type content confidence with
  | .error σ' => .error σ'
  | .ok (mem_id, σ₂) => .ok (some mem_id, σ₂)

/-- `MemoryDeduplicator._save_session_memory` with its `try/except`. -/
def save_session_memory (env : Env) (σ : Store) (content : String)
    (confidence : ℚ) (memory_type session_id user_id : String) :
    Option Nat × Store :=
  match save_session_body env σ content confidence memory_type session_id user_id with
  | .ok r => r
  | .error σ' => (none, σ')

/-- Body of the `try` block of `process_and_save_memory` (embedding
generation followed by the tier dispatch). -/
def psm_body (env : Env) (σ : Store) (memory : MemoryCandidate)
    (session_id user_id memory_type : String) :
    Except Store (Option Nat × Store) :=
  match embed_text env σ memory.content with
  | .error σ' => .error σ'
  | .ok (embedding, σ₁) =>
      if memory.confidence ≥ 3/5 then
        .ok (save_global_memory env σ₁ memory.content embedding memory.confidence
          memory_type session_id user_id)
      else
        .ok (save_session_memory env σ₁ memory.content memory.confidence
          memory_type session_id user_id)

/-- `MemoryDeduplicator.process_and_save_memory`: the `worth_saving` and
confidence-threshold checks precede the `try` block; the `try/except`
converts any escaping exception into a `None` return. -/
def process_and_save_memory (env : Env) (σ : Store) (memory : MemoryCandidate)
    (session_id user_id memory_type : String) : Option Nat × Store :=
  if memory.worth_saving = false then (none, σ)
  else if memory.confidence < 2/5 then (none, σ)
  else
    match psm_body env σ memory session_id user_id memory_type with
    | .ok r => r
    | .error σ' => (none, σ')

/-! ## `EpisodicPromoter` (`memory_architecture.py` lines 940-1121) -/

/-- Body of the `try` block of `EpisodicPromoter._promote_to_semantic`.
The Python function also receives the new occurrence dict but never uses it;
`tracker_record` arrives with the just-appended occurrence already in
`occurrences` (the caller's `occurrences.append(...)` mutates the list held
by the fetched dict).  After the tracker update the body calls
`logger.success`, which always raises (see `logger_success`), so the final
`return` of the promoted dict is dead code: a fully successful promotion
still leaves the body through the exception path, with the insert and both
updates persisted. -/
def promote_body (env : Env) (σ : Store) (tracker_record : TrackerRecord)
    (user_id : String) : Except Store (Option PromotedMemory × Store) :=
  match generate_insight env σ with
  | .error σ' => .error σ'
  | .ok (parsed, σ₀) =>
    match embed_text env σ₀ parsed.insight with
    | .error σ' => .error σ'
    | .ok (embedding, σ₁) =>
      match insert_global env σ₁ user_id "semantic" parsed.insight embedding
          parsed.confidence (tracker_record.occurrences.map (·.session_id))
          tracker_record.occurrences.length with
      | .error σ' => .error σ'
      | .ok (semantic_id, σ₂) =>
        match update_tracker_promoted env σ₂ tracker_record.id (some semantic_id) with
        | .error σ' => .error σ'
        | .ok σ₃ =>
            match logger_success σ₃ with
            | .error σ' => .error σ'
            | .ok _ =>
                .ok (some ⟨semantic_id, parsed.insight, parsed.confidence⟩, σ₃)

/-- `EpisodicPromoter._promote_to_semantic` with its `try/except`. -/
def promote_to_semantic (env : Env) (σ : Store) (tracker_record : TrackerRecord)
    (user_id : String) : Option PromotedMemory × Store :=
  match promote_body env σ tracker_record user_id with
  | .ok r => r
  | .error σ' => (none, σ')

/-- Body of the `try` block of `EpisodicPromoter.track_and_promote`; the
episodic dict enters only through its `content`. -/
def tap_body (env : Env) (σ : Store) (content session_id user_id : String) :
    Except Store (Option PromotedMemory × Store) :=
  let pattern_hash := compute_pattern_hash content
  match query_tracker env σ user_id pattern_hash with
  | .error σ' => .error σ'
  | .ok (existing?, σ₁) =>
    match existing? with
    | some existing =>
        let occurrences := existing.occurrences ++ [⟨content, session_id, env.now⟩]
        let new_count := existing.occurrence_count + 1
        match update_tracker_occ env σ₁ existing.id occurrences new_count with
        | .error σ' => .error σ'
        | .ok σ₂ =>
            if new_count ≥ 2 ∧ pyIdTruthy existing.promoted_to_semantic_id = false then
              .ok (promote_to_semantic env σ₂
                { existing with occurrences := occurrences } user_id)
            else .ok (none, σ₂)
    | none =>
        match insert_tracker env σ₁ user_id pattern_hash
            [⟨content, session_id, env.now⟩] with
        | .error σ' => .error σ'
        | .ok (_, σ₂) => .ok (none, σ₂)

/-- `EpisodicPromoter.track_and_promote` with its `try/except` (any escaping
exception is logged and the function falls through to `return None`). -/
def track_and_promote (env : Env) (σ : Store) (content session_id user_id : String) :
    Option PromotedMemory × Store :=
  match tap_body env σ content session_id user_id with
  | .ok r => r
  | .error σ' => (none, σ')

/-! ## `MemoryRetriever` (`rag_retrieval.py`) -/

/-- An opaque episodic memory dict stored in the `memories` table's
`episodic_memories` JSONB arrays (returned verbatim by retrieval). -/
structure EpItem where
  payload : String
deriving Repr, DecidableEq

/-- A row of the `memories` table as selected by
`fetch_current_session_episodics` (`none` models a non-list / null
`episodic_memories` column, skipped by the `isinstance` check). -/
structure MemoriesRow where
  session_id : String
  episodic_memories : Option (List EpItem)
  created_at : Nat
deriving Repr, DecidableEq

/-- A row returned by the `search_memories_hybrid` RPC (the SQL function is
not in the repository sources; the retriever only reads `memory_type` for
bucketing and passes rows through). -/
structure HybridRow where
  id : Nat
  memory_type : String
  content : String
  confidence_score : ℚ
  combined_score : ℚ
deriving Repr, DecidableEq

/-- A memory dict held in a retrieval bucket: either a hybrid-search row or
a session-memory row. -/
inductive MemRow
  | glob (r : HybridRow)
  | sess (r : SessionMemoryRecord)
deriving Repr, DecidableEq

/-- `mem.get('memory_type', '')` on a bucketed row. -/
def MemRow.memory_type : MemRow → String
  | .glob r => r.memory_type
  | .sess r => r.memory_type

/-- The read-side store state. -/
structure RStore where
  session_memories : List SessionMemoryRecord
  memories : List MemoriesRow
deriving Repr, DecidableEq

/-- The read-side environment: the hybrid-search RPC as an oracle, plus one
failure flag per retrieval source (`true` = that Supabase call raises). -/
structure REnv where
  hybridSearch : List ℚ → String → String → List String → ℚ → Nat → List HybridRow
  global_fails : Bool
  session_fails : Bool
  episodic_fails : Bool

/-- Ascending order on `created_at` used by `.order('created_at')`. -/
def createdLeS (a b : SessionMemoryRecord) : Prop :=
  a.created_at ≤ b.created_at

instance : DecidableRel createdLeS :=
  fun a b => inferInstanceAs (Decidable (a.created_at ≤ b.created_at))

instance : IsTotal SessionMemoryRecord createdLeS :=
  ⟨fun a b => Nat.le_total a.created_at b.created_at⟩

instance : IsTrans SessionMemoryRecord createdLeS :=
  ⟨fun _ _ _ h₁ h₂ => Nat.le_trans h₁ h₂⟩

/-- Ascending order on `created_at` for `memories` rows. -/
def createdLeM (a b : MemoriesRow) : Prop :=
  a.created_at ≤ b.created_at

instance : DecidableRel createdLeM :=
  fun a b => inferInstanceAs (Decidable (a.created_at ≤ b.created_at))

instance : IsTotal MemoriesRow createdLeM :=
  ⟨fun a b => Nat.le_total a.created_at b.created_at⟩

instance : IsTrans MemoriesRow createdLeM :=
  ⟨fun _ _ _ h₁ h₂ => Nat.le_trans h₁ h₂⟩

/-- `MemoryRetriever.retrieve_global_memories`: the hybrid-search RPC inside
its `try/except` (a failure is logged and yields `[]`). -/
def retrieve_global_memories (env : REnv) (query : String)
    (query_embedding : List ℚ) (memory_types : List String)
    (confidence_threshold : ℚ) (user_id : String) (top_k : Nat) : List HybridRow :=
  if env.global_fails then []
  else env.hybridSearch query_embedding query user_id memory_types
    confidence_threshold top_k

/-- `MemoryRetriever.fetch_session_memories`: rows of `session_memories`
with the given `session_id` and a requested `memory_type`, ordered by
`created_at` ascending; a failure yields `[]`. -/
def fetch_session_memories (env : REnv) (st : RStore) (session_id : String)
    (memory_types : List String) : List SessionMemoryRecord :=
  if env.session_fails then []
  else List.insertionSort createdLeS
    (st.session_memories.filter fun m =>
      m.session_id = session_id && memory_types.contains m.memory_type)

/-- `MemoryRetriever.fetch_current_session_episodics`: the concatenation of
the `episodic_memories` arrays of the current session's `memories` rows in
`created_at` order, skipping non-list columns; a failure yields `[]`. -/
def fetch_current_session_episodics (env : REnv) (st : RStore)
    (session_id : String) : List EpItem :=
  if env.episodic_fails then []
  else
    ((List.insertionSort createdLeM
        (st.memories.filter fun r => r.session_id = session_id)).map
      (fun r => r.episodic_memories.getD [])).flatten

/-- The `result` dict of `retrieve_memories` while it is being filled: all
three keys hold lists of memory dicts (`result['episodic']` is overwritten
wholesale at the end). -/
structure Buckets where
  semantic : List MemRow
  procedural : List MemRow
  episodic : List MemRow
deriving Repr, DecidableEq

/-- `if mem_type in result: result[mem_type].append(mem)`. -/
def placeRow (b : Buckets) (m : MemRow) : Buckets :=
  if m.memory_type = "semantic" then { b with semantic := b.semantic ++ [m] }
  else if m.memory_type = "procedural" then { b with procedural := b.procedural ++ [m] }
  else if m.memory_type = "episodic" then { b with episodic := b.episodic ++ [m] }
  else b

/-- The dict returned by `retrieve_memories`. -/
structure RetrievalResult where
  semantic : List MemRow
  procedural : List MemRow
  episodic : List EpItem
deriving Repr, DecidableEq

/-- `MemoryRetriever.retrieve_memories`: global rows (when semantic or
procedural is requested) and session rows are appended type-wise; the
episodic bucket is then assigned the current-session episodic list.  Each
source catches its own failures, so the outer `try` never fires in the
embedding. -/
def retrieve_memories (env : REnv) (st : RStore) (query : String)
    (query_embedding : List ℚ) (memory_types : List String)
    (confidence_threshold : ℚ) (user_id session_id : String) (top_k : Nat) :
    RetrievalResult :=
  let b0 : Buckets := ⟨[], [], []⟩
  let b1 :=
    if memory_types.contains "semantic" || memory_types.contains "procedural" then
      (retrieve_global_memories env query query_embedding memory_types
          confidence_threshold user_id top_k).foldl
        (fun b r => placeRow b (.glob r)) b0
    else b0
  let b2 :=
    (fetch_session_memories env st session_id memory_types).foldl
      (fun b r => placeRow b (.sess r)) b1
  let episodics := fetch_current_session_episodics env st session_id
  ⟨b2.semantic, b2.procedural, episodics⟩

/-! ## Derived expressions and concrete fixtures used in theorem statements -/

/-- The hybrid-search rows step 1 of `retrieve_memories` processes: the RPC
result when semantic or procedural was requested, nothing otherwise. -/
def globalRows (env : REnv) (query : String) (query_embedding : List ℚ)
    (memory_types : List String) (confidence_threshold : ℚ)
    (user_id : String) (top_k : Nat) : List HybridRow :=
  if memory_types.contains "semantic" || memory_types.contains "procedural" then
    retrieve_global_memories env query query_embedding memory_types
      confidence_threshold user_id top_k
  else []

/-- The merge update `_save_global_memory` applies to the record whose id is
the top match's: the Python `update(...).eq('id', existing['id'])`. -/
def mergeUpdate (env : Env) (existing : SimRow) (session_id : String)
    (g : GlobalMemoryRecord) : GlobalMemoryRecord :=
  if g.id = existing.id then
    { g with
      confidence_score := min 1 (existing.confidence_score * (6/5) + 1/10),
      occurrence_count := existing.occurrence_count + 1,
      source_session_ids :=
        if session_id ∈ existing.source_session_ids then existing.source_session_ids
        else existing.source_session_ids ++ [session_id],
      updated_at := env.now,
      access_count := existing.access_count + 1 }
  else g

/-- An all-healthy environment for concrete runs. -/
def envW : Env :=
  { embed := fun _ => [(1 : ℚ)], embed_fails := false,
    simSearch := fun _ _ _ => [], rpc_fails := false,
    global_insert_fails := false, global_update_fails := false,
    session_insert_fails := false, tracker_query_fails := false,
    tracker_insert_fails := false, tracker_update_fails := false,
    llmResult := some ⟨"pattern insight", 7/10⟩, now := 5 }

/-- The empty store. -/
def emptyStore : Store := ⟨[], [], [], 0⟩

/-- A similarity row the RPC oracle can return. -/
def simRowW : SimRow :=
  { id := 3, similarity := 9/10, confidence_score := 3/5,
    occurrence_count := 2, source_session_ids := ["s1"], access_count := 7 }

/-- The stored global record `simRowW` mirrors. -/
def globalW : GlobalMemoryRecord :=
  { id := 3, user_id := "u", memory_type := "semantic", content := "c0",
    embedding := [(1 : ℚ)], confidence_score := 3/5, worth_saving := true,
    source_session_ids := ["s1"], occurrence_count := 2, access_count := 7,
    updated_at := 0 }

/-- `envW` with a similarity oracle that finds `simRowW`. -/
def envSimW : Env := { envW with simSearch := fun _ _ _ => [simRowW] }

/-- A store holding exactly the record `simRowW` matches. -/
def storeSimW : Store := ⟨[globalW], [], [], 4⟩

/-- Candidate below the 0.4 threshold. -/
def memLowW : MemoryCandidate := ⟨"low", 1/5, true⟩

/-- High-confidence candidate flagged not worth saving. -/
def memNoSaveW : MemoryCandidate := ⟨"skip", 9/10, false⟩

/-- Session-tier candidate (confidence 0.5). -/
def memSessW : MemoryCandidate := ⟨"mid", 1/2, true⟩

/-- Global-tier candidate (confidence 0.8). -/
def memGlobW : MemoryCandidate := ⟨"hi", 4/5, true⟩

/-- A hybrid-search row of type semantic. -/
def hybW : HybridRow := ⟨1, "semantic", "g", 4/5, 1/2⟩

/-- A session memory of type procedural for session "s". -/
def sessW : SessionMemoryRecord := ⟨2, "s", "u", "procedural", "sc", 1/2, 1⟩

/-- A session memory of type episodic for session "s". -/
def sessEpW : SessionMemoryRecord := ⟨0, "s", "u", "episodic", "c", 1/2, 0⟩

/-- An episodic payload. -/
def epW : EpItem := ⟨"ep1"⟩

/-- A `memories` row for session "s" holding `epW`. -/
def memRowW : MemoriesRow := ⟨"s", some [epW], 0⟩

/-- Read-side environment whose hybrid search finds `hybW`. -/
def rEnvW : REnv := ⟨fun _ _ _ _ _ _ => [hybW], false, false, false⟩

/-- Read-side environment whose hybrid search finds nothing. -/
def rEnvNilW : REnv := ⟨fun _ _ _ _ _ _ => [], false, false, false⟩

/-- Read-side store with one procedural session memory and one episodic row. -/
def rStoreW : RStore := ⟨[sessW], [memRowW]⟩

/-- Read-side store with a single episodic-typed session memory. -/
def rStoreEpW : RStore := ⟨[sessEpW], []⟩

/-- `envW` with a failing embedding service. -/
def envEF : Env := { envW with embed_fails := true }

/-- `envW` with a failing similarity-search RPC. -/
def envRF : Env := { envW with rpc_fails := true }

/-- `envSimW` with a failing global-memory update. -/
def envGUF : Env := { envSimW with global_update_fails := true }

/-- `envW` with a failing global-memory insert. -/
def envGIF : Env := { envW with global_insert_fails := true }

/-- `envW` with a failing session-memory insert. -/
def envSIF : Env := { envW with session_insert_fails := true }

/-- `envW` whose promotion LLM response fails to parse. -/
def envLlmF : Env := { envW with llmResult := none }

/-- `rEnvW` with the global source failing. -/
def rEnvGF : REnv := { rEnvW with global_fails := true }

/-- `rEnvW` with all three sources failing. -/
def rEnvAllF : REnv :=
  { rEnvW with global_fails := true, session_fails := true, episodic_fails := true }

/-! ## Validation of the executable MD5 against RFC 1321 test vectors,
and of `compute_pattern_hash` against concrete digests. -/

theorem md5Hex_empty_vector : md5Hex "" = "d41d8cd98f00b204e9800998ecf8427e" := by
  decide

theorem md5Hex_abc_vector : md5Hex "abc" = "900150983cd24fb0d6963f7d28e17f72" := by
  decide

theorem pattern_hash_spec_first_content :
    compute_pattern_hash "I felt very Anxious before Presentation" =
      "7c02baff18f5770c" := by
  decide

theorem pattern_hash_spec_second_content :
    compute_pattern_hash "presentation anxious very felt i" =
      "45c98c5d9c500443" := by
  decide

/-! ## Lemmas about the retrieval fold -/

theorem foldl_placeRow_semantic (l : List MemRow) : ∀ b : Buckets,
    (l.foldl placeRow b).semantic =
      b.semantic ++ l.filter (fun m => m.memory_type = "semantic") := by
  induction l with
  | nil => intro b; simp
  | cons m l ih =>
    intro b
    simp only [List.foldl_cons, List.filter_cons, ih]
    by_cases h1 : m.memory_type = "semantic"
    · simp [placeRow, h1]
    · by_cases h2 : m.memory_type = "procedural"
      · simp [placeRow, h1, h2]
      · by_cases h3 : m.memory_type = "episodic"
        · simp [placeRow, h1, h2, h3]
        · simp [placeRow, h1, h2, h3]

theorem foldl_placeRow_procedural (l : List MemRow) : ∀ b : Buckets,
    (l.foldl placeRow b).procedural =
      b.procedural ++ l.filter (fun m => m.memory_type = "procedural") := by
  induction l with
  | nil => intro b; simp
  | cons m l ih =>
    intro b
    simp only [List.foldl_cons, List.filter_cons, ih]
    by_cases h1 : m.memory_type = "semantic"
    · simp [placeRow, h1]
    · by_cases h2 : m.memory_type = "procedural"
      · simp [placeRow, h1, h2]
      · by_cases h3 : m.memory_type = "episodic"
        · simp [placeRow, h1, h2, h3]
        · simp [placeRow, h1, h2, h3]

/-- Decomposition of `retrieve_memories`: each returned bucket is the
type-filtered hybrid rows followed by the type-filtered session rows, and
the episodic bucket is exactly the current-session episodic fetch. -/
theorem retrieve_memories_decomp (env : REnv) (st : RStore) (q : String)
    (emb : List ℚ) (types : List String) (thr : ℚ) (uid sid : String) (k : Nat) :
    retrieve_memories env st q emb types thr uid sid k =
      ⟨((globalRows env q emb types thr uid k).map MemRow.glob).filter
          (fun m => m.memory_type = "semantic") ++
        ((fetch_session_memories env st sid types).map MemRow.sess).filter
          (fun m => m.memory_type = "semantic"),
       ((globalRows env q emb types thr uid k).map MemRow.glob).filter
          (fun m => m.memory_type = "procedural") ++
        ((fetch_session_memories env st sid types).map MemRow.sess).filter
          (fun m => m.memory_type = "procedural"),
       fetch_current_session_episodics env st sid⟩ := by
  have hfoldg : ∀ (l : List HybridRow) (b : Buckets),
      l.foldl (fun b r => placeRow b (.glob r)) b = (l.map MemRow.glob).foldl placeRow b := by
    intro l
    induction l with
    | nil => intro b; rfl
    | cons x xs ih => intro b; simp only [List.foldl_cons, List.map_cons, ih]
  have hfolds : ∀ (l : List SessionMemoryRecord) (b : Buckets),
      l.foldl (fun b r => placeRow b (.sess r)) b = (l.map MemRow.sess).foldl placeRow b := by
    intro l
    induction l with
    | nil => intro b; rfl
    | cons x xs ih => intro b; simp only [List.foldl_cons, List.map_cons, ih]
  unfold retrieve_memories
  simp only [hfoldg, hfolds]
  unfold globalRows
  split
  · simp [foldl_placeRow_semantic, foldl_placeRow_procedural]
  · simp [foldl_placeRow_semantic, foldl_placeRow_procedural]

/-- Claim C7: for every `retrieve_memories` call, a record of `memory_type`
X is never placed in an output bucket other than X, and the episodic bucket
equals exactly the full current-session episodic set (the
`fetch_current_session_episodics` result), regardless of the
`confidence_threshold` argument. -/
theorem retrieval_bucket_partition (env : REnv) (st : RStore) (q : String)
    (emb : List ℚ) (types : List String) (thr : ℚ) (uid sid : String) (k : Nat) :
    (∀ m ∈ (retrieve_memories env st q emb types thr uid sid k).semantic,
        m.memory_type = "semantic") ∧
    (∀ m ∈ (retrieve_memories env st q emb types thr uid sid k).procedural,
        m.memory_type = "procedural") ∧
    (retrieve_memories env st q emb types thr uid sid k).episodic =
      fetch_current_session_episodics env st sid := by
  rw [retrieve_memories_decomp]
  refine ⟨?_, ?_, rfl⟩ <;>
  · intro m hm
    simp only [List.mem_append, List.mem_filter, decide_eq_true_eq] at hm
    rcases hm with ⟨_, h⟩ | ⟨_, h⟩ <;> exact h

/-- Witness for C7 at a concrete environment: the hybrid row `hybW` lands in
the semantic bucket and is semantic, and the episodic bucket is the episodic
fetch. -/
theorem retrieval_bucket_partition_witness :
    (MemRow.glob hybW).memory_type = "semantic" ∧
    (retrieve_memories rEnvW rStoreW "q" [] ["semantic", "procedural"] (1/2) "u" "s" 10).episodic =
      fetch_current_session_episodics rEnvW rStoreW "s" := by
  have h := retrieval_bucket_partition rEnvW rStoreW "q" []
    ["semantic", "procedural"] (1/2) "u" "s" 10
  have hlist : (retrieve_memories rEnvW rStoreW "q" [] ["semantic", "procedural"]
      (1/2) "u" "s" 10).semantic = [MemRow.glob hybW] := rfl
  exact ⟨h.1 (MemRow.glob hybW) (hlist ▸ List.mem_singleton.mpr rfl), h.2.2⟩

/-- Claim C9: failures of the three retrieval sources are isolated.  If the
global fetch throws, the session and episodic buckets are still correctly
populated; if all three sources fail the result is three empty lists rather
than an exception; and toggling one source's failure flag leaves the other
sources' buckets untouched. -/
theorem retrieval_failure_isolation (env : REnv) (st : RStore) (q : String)
    (emb : List ℚ) (types : List String) (thr : ℚ) (uid sid : String) (k : Nat) :
    (env.global_fails = true →
      retrieve_memories env st q emb types thr uid sid k =
        ⟨((fetch_session_memories env st sid types).map MemRow.sess).filter
            (fun m => m.memory_type = "semantic"),
         ((fetch_session_memories env st sid types).map MemRow.sess).filter
            (fun m => m.memory_type = "procedural"),
         fetch_current_session_episodics env st sid⟩) ∧
    (env.global_fails = true → env.session_fails = true → env.episodic_fails = true →
      retrieve_memories env st q emb types thr uid sid k = ⟨[], [], []⟩) ∧
    ((retrieve_memories { env with episodic_fails := true } st q emb types thr uid sid k).semantic =
        (retrieve_memories { env with episodic_fails := false } st q emb types thr uid sid k).semantic ∧
      (retrieve_memories { env with episodic_fails := true } st q emb types thr uid sid k).procedural =
        (retrieve_memories { env with episodic_fails := false } st q emb types thr uid sid k).procedural) ∧
    (retrieve_memories { env with global_fails := true, session_fails := true }
        st q emb types thr uid sid k).episodic =
      fetch_current_session_episodics env st sid := by
  have hrows : env.global_fails = true → ∀ e' : REnv, e'.global_fails = env.global_fails →
      ∀ q' emb' types' thr' uid' k', globalRows e' q' emb' types' thr' uid' k' = [] := by
    intro hg e' he q' emb' types' thr' uid' k'
    unfold globalRows retrieve_global_memories
    rw [he, hg]
    split <;> rfl
  refine ⟨?_, ?_, ⟨?_, ?_⟩, ?_⟩
  · intro hg
    rw [retrieve_memories_decomp, hrows hg env rfl]
    rfl
  · intro hg hs he
    rw [retrieve_memories_decomp, hrows hg env rfl]
    unfold fetch_session_memories fetch_current_session_episodics
    rw [hs, he]
    rfl
  · rw [retrieve_memories_decomp, retrieve_memories_decomp]
    rfl
  · rw [retrieve_memories_decomp, retrieve_memories_decomp]
    rfl
  · rw [retrieve_memories_decomp]
    rfl

/-- Witness for C9: with the global source failing, the concrete retrieval
still returns the session bucket and the episodic list; with all three
failing it returns three empty lists. -/
theorem retrieval_failure_isolation_witness :
    retrieve_memories rEnvGF rStoreW "q" []
        ["semantic", "procedural"] (1/2) "u" "s" 10 =
      ⟨((fetch_session_memories rEnvGF rStoreW "s"
            ["semantic", "procedural"]).map MemRow.sess).filter
          (fun m => m.memory_type = "semantic"),
       ((fetch_session_memories rEnvGF rStoreW "s"
            ["semantic", "procedural"]).map MemRow.sess).filter
          (fun m => m.memory_type = "procedural"),
       fetch_current_session_episodics rEnvGF rStoreW "s"⟩ ∧
    retrieve_memories rEnvAllF rStoreW "q" [] ["semantic", "procedural"]
        (1/2) "u" "s" 10 = ⟨[], [], []⟩ := by
  have h1 := retrieval_failure_isolation rEnvGF
    rStoreW "q" [] ["semantic", "procedural"] (1/2) "u" "s" 10
  have h2 := retrieval_failure_isolation rEnvAllF
    rStoreW "q" [] ["semantic", "procedural"] (1/2) "u" "s" 10
  exact ⟨h1.1 rfl, h2.2.1 rfl rfl rfl⟩

/-- Counterexample to claim C8 as stated: an episodic-typed session memory
is fetched for the requested types (`fetch_session_memories` returns it) but
the returned dict contains it in no bucket — `retrieve_memories` overwrites
the episodic bucket with the (here empty) current-session episodic fetch. -/
theorem session_episodic_dropped :
    fetch_session_memories rEnvNilW rStoreEpW "s" ["episodic"] = [sessEpW] ∧
    retrieve_memories rEnvNilW rStoreEpW "q" [] ["episodic"] (1/2) "u" "s" 10 =
      ⟨[], [], []⟩ :=
  ⟨rfl, rfl⟩

/-- Claim C8 (amended): the session fetch returns exactly the
`session_memories` rows with the given session id and a requested type,
ordered by creation time ascending, and every fetched session memory of
type semantic or procedural appears in the corresponding returned bucket
(episodic-typed session rows are appended but then overwritten by the
current-session episodic fetch, see `session_episodic_dropped`). -/
theorem session_memories_routed (env : REnv) (st : RStore) (q : String)
    (emb : List ℚ) (types : List String) (thr : ℚ) (uid sid : String) (k : Nat) :
    (∀ m ∈ fetch_session_memories env st sid types,
      (m.memory_type = "semantic" →
        MemRow.sess m ∈ (retrieve_memories env st q emb types thr uid sid k).semantic) ∧
      (m.memory_type = "procedural" →
        MemRow.sess m ∈ (retrieve_memories env st q emb types thr uid sid k).procedural)) ∧
    List.Sorted createdLeS (fetch_session_memories env st sid types) ∧
    (env.session_fails = false →
      ∀ r : SessionMemoryRecord,
        r ∈ fetch_session_memories env st sid types ↔
          r ∈ st.session_memories ∧ r.session_id = sid ∧ r.memory_type ∈ types) := by
  refine ⟨?_, ?_, ?_⟩
  · intro m hm
    rw [retrieve_memories_decomp]
    constructor
    · intro hty
      simp only [List.mem_append, List.mem_filter, decide_eq_true_eq]
      exact Or.inr ⟨List.mem_map_of_mem _ hm, hty⟩
    · intro hty
      simp only [List.mem_append, List.mem_filter, decide_eq_true_eq]
      exact Or.inr ⟨List.mem_map_of_mem _ hm, hty⟩
  · unfold fetch_session_memories
    split
    · exact List.sorted_nil
    · exact List.sorted_insertionSort createdLeS _
  · intro hflag r
    unfold fetch_session_memories
    rw [hflag]
    simp only [Bool.false_eq_true, if_false,
      (List.perm_insertionSort createdLeS _).mem_iff, List.mem_filter,
      Bool.and_eq_true, decide_eq_true_eq]
    constructor
    · rintro ⟨h1, h2, h3⟩
      exact ⟨h1, h2, by simpa using h3⟩
    · rintro ⟨h1, h2, h3⟩
      exact ⟨h1, h2, by simpa using h3⟩

/-- Witness for the amended C8 at a concrete store: the procedural session
memory `sessW` is fetched and lands in the procedural bucket, and the fetch
agrees with the filter characterization. -/
theorem session_memories_routed_witness :
    MemRow.sess sessW ∈
      (retrieve_memories rEnvNilW rStoreW "q" [] ["semantic", "procedural"]
        (1/2) "u" "s" 10).procedural ∧
    (sessW ∈ fetch_session_memories rEnvNilW rStoreW "s" ["semantic", "procedural"] ↔
      sessW ∈ rStoreW.session_memories ∧ sessW.session_id = "s" ∧
        sessW.memory_type ∈ ["semantic", "procedural"]) := by
  have h := session_memories_routed rEnvNilW rStoreW "q" []
    ["semantic", "procedural"] (1/2) "u" "s" 10
  have hlist : fetch_session_memories rEnvNilW rStoreW "s" ["semantic", "procedural"] =
      [sessW] := rfl
  exact ⟨(h.1 sessW (hlist ▸ List.mem_singleton.mpr rfl)).2 rfl, h.2.2 rfl sessW⟩

/-! ## Claims about `MemoryDeduplicator` -/

/-- Claim C1: confidence routing partition.  `worth_saving = false` or
`confidence < 0.4` returns null with no store write; `0.4 ≤ confidence < 0.6`
inserts exactly one session memory (the environment's similarity oracle and
rpc flag are unconstrained — no dedup lookup happens on this path) and
returns its id; `confidence ≥ 0.6` either inserts exactly one global memory
(no similar record) or applies the merge update to the top match's record
and returns its id (no second global record: `next_id` and the other tables
are untouched by the map). -/
theorem confidence_routing_partition (env : Env) (σ : Store)
    (memory : MemoryCandidate) (session_id user_id memory_type : String) :
    (memory.worth_saving = false →
      process_and_save_memory env σ memory session_id user_id memory_type = (none, σ)) ∧
    (memory.confidence < 2/5 →
      process_and_save_memory env σ memory session_id user_id memory_type = (none, σ)) ∧
    (memory.worth_saving = true → 2/5 ≤ memory.confidence → memory.confidence < 3/5 →
      env.embed_fails = false → env.session_insert_fails = false →
      process_and_save_memory env σ memory session_id user_id memory_type =
        (some σ.next_id,
          { σ with
            session_memories := σ.session_memories ++
              [⟨σ.next_id, session_id, user_id, memory_type, memory.content,
                memory.confidence, env.now⟩],
            next_id := σ.next_id + 1 })) ∧
    (memory.worth_saving = true → 3/5 ≤ memory.confidence →
      env.embed_fails = false → env.rpc_fails = false →
      env.global_insert_fails = false → env.global_update_fails = false →
      (env.simSearch (env.embed memory.content) user_id memory_type = [] →
        process_and_save_memory env σ memory session_id user_id memory_type =
          (some σ.next_id,
            { σ with
              global_memories := σ.global_memories ++
                [⟨σ.next_id, user_id, memory_type, memory.content,
                  env.embed memory.content, memory.confidence, true,
                  [session_id], 1, 0, env.now⟩],
              next_id := σ.next_id + 1 })) ∧
      (∀ existing rest,
        env.simSearch (env.embed memory.content) user_id memory_type = existing :: rest →
        process_and_save_memory env σ memory session_id user_id memory_type =
          (some existing.id,
            { σ with global_memories :=
                σ.global_memories.map (mergeUpdate env existing session_id) }))) := by
  refine ⟨?_, ?_, ?_, ?_⟩
  · intro h
    simp [process_and_save_memory, h]
  · intro h
    cases hw : memory.worth_saving with
    | false => simp [process_and_save_memory, hw]
    | true => simp [process_and_save_memory, hw, h]
  · intro hw h40 h60 hef hsf
    have h40' : ¬ memory.confidence < 2/5 := not_lt.mpr h40
    have h60' : ¬ 3/5 ≤ memory.confidence := not_le.mpr h60
    simp [process_and_save_memory, psm_body, embed_text, save_session_memory,
      save_session_body, insert_session, hw, hef, hsf, h40', h60']
  · intro hw h60 hef hrf hgi hgu
    have h40' : ¬ memory.confidence < 2/5 :=
      not_lt.mpr (le_trans (by norm_num) h60)
    constructor
    · intro hsim
      simp [process_and_save_memory, psm_body, embed_text, save_global_memory,
        save_global_body, rpc_find_similar, insert_global, hw, hef, hrf, hgi,
        h40', h60, hsim]
    · intro existing rest hsim
      simp only [process_and_save_memory, psm_body, embed_text, save_global_memory,
        save_global_body, rpc_find_similar, insert_global, update_global,
        mergeUpdate, hw, hef, hrf, hgu, h40', h60, hsim, Bool.false_eq_true,
        if_false, if_true, ge_iff_le, if_pos h60]
      rfl

/-- Witness for C1: the four routing outcomes at concrete candidates
(`worth_saving=false`, confidence 0.2, 0.5, 0.8 with and without a similar
record). -/
theorem confidence_routing_partition_witness :
    process_and_save_memory envW emptyStore memNoSaveW "s" "u" "semantic" =
      (none, emptyStore) ∧
    process_and_save_memory envW emptyStore memLowW "s" "u" "semantic" =
      (none, emptyStore) ∧
    process_and_save_memory envW emptyStore memSessW "s" "u" "semantic" =
      (some 0,
        { emptyStore with
          session_memories := [⟨0, "s", "u", "semantic", "mid", 1/2, 5⟩],
          next_id := 1 }) ∧
    process_and_save_memory envW emptyStore memGlobW "s" "u" "semantic" =
      (some 0,
        { emptyStore with
          global_memories := [⟨0, "u", "semantic", "hi", [(1 : ℚ)], 4/5, true,
            ["s"], 1, 0, 5⟩],
          next_id := 1 }) ∧
    process_and_save_memory envSimW storeSimW memGlobW "s" "u" "semantic" =
      (some 3,
        { storeSimW with global_memories :=
            storeSimW.global_memories.map (mergeUpdate envSimW simRowW "s") }) := by
  refine ⟨?_, ?_, ?_, ?_, ?_⟩
  · exact (confidence_routing_partition envW emptyStore memNoSaveW "s" "u" "semantic").1 rfl
  · exact (confidence_routing_partition envW emptyStore memLowW "s" "u" "semantic").2.1
      (by norm_num [memLowW])
  · have h := (confidence_routing_partition envW emptyStore memSessW "s" "u"
      "semantic").2.2.1 rfl (by norm_num [memSessW]) (by norm_num [memSessW]) rfl rfl
    simpa [memSessW, envW, emptyStore] using h
  · have h := ((confidence_routing_partition envW emptyStore memGlobW "s" "u"
      "semantic").2.2.2 rfl (by norm_num [memGlobW]) rfl rfl rfl rfl).1 rfl
    simpa [memGlobW, envW, emptyStore] using h
  · have h := ((confidence_routing_partition envSimW storeSimW memGlobW "s" "u"
      "semantic").2.2.2 rfl (by norm_num [memGlobW]) rfl rfl rfl rfl).2 simRowW [] rfl
    simpa [memGlobW] using h

/-- Claim C2: the global-tier merge.  When the similarity RPC returns a top
match mirroring a stored record, that record is updated in place with
`new_confidence = min(1.0, old*1.2 + 0.1)` (non-decreasing and bounded by 1
for old values in [0,1]), `occurrence_count + 1`, the session id appended to
`source_session_ids` only if absent, `access_count + 1`; the existing id is
returned and no second global record is created (`next_id` and all list
lengths are unchanged). -/
theorem global_merge_update (env : Env) (σ : Store) (content : String)
    (embedding : List ℚ) (confidence : ℚ) (memory_type session_id user_id : String)
    (existing : SimRow) (rest : List SimRow) (g : GlobalMemoryRecord)
    (hrf : env.rpc_fails = false) (hgu : env.global_update_fails = false)
    (hsim : env.simSearch embedding user_id memory_type = existing :: rest)
    (hg : g ∈ σ.global_memories) (hid : g.id = existing.id)
    (hconf : g.confidence_score = existing.confidence_score)
    (hocc : g.occurrence_count = existing.occurrence_count)
    (hsids : g.source_session_ids = existing.source_session_ids)
    (hacc : g.access_count = existing.access_count)
    (h0 : 0 ≤ existing.confidence_score) (h1 : existing.confidence_score ≤ 1) :
    save_global_memory env σ content embedding confidence memory_type session_id user_id =
      (some existing.id,
        { σ with global_memories :=
            σ.global_memories.map (mergeUpdate env existing session_id) }) ∧
    { g with
      confidence_score := min 1 (g.confidence_score * (6/5) + 1/10),
      occurrence_count := g.occurrence_count + 1,
      source_session_ids :=
        if session_id ∈ g.source_session_ids then g.source_session_ids
        else g.source_session_ids ++ [session_id],
      updated_at := env.now,
      access_count := g.access_count + 1 } ∈
      (σ.global_memories.map (mergeUpdate env existing session_id)) ∧
    (σ.global_memories.map (mergeUpdate env existing session_id)).length =
      σ.global_memories.length ∧
    (∀ x ∈ σ.global_memories, x.id ≠ existing.id →
      x ∈ σ.global_memories.map (mergeUpdate env existing session_id)) ∧
    g.confidence_score ≤ min 1 (existing.confidence_score * (6/5) + 1/10) ∧
    min 1 (existing.confidence_score * (6/5) + 1/10) ≤ 1 := by
  refine ⟨?_, ?_, List.length_map _ _, ?_, ?_, min_le_left _ _⟩
  · unfold save_global_memory save_global_body rpc_find_similar update_global
    rw [hrf, hsim, hgu]
    rfl
  · have : mergeUpdate env existing session_id g =
        { g with
          confidence_score := min 1 (g.confidence_score * (6/5) + 1/10),
          occurrence_count := g.occurrence_count + 1,
          source_session_ids :=
            if session_id ∈ g.source_session_ids then g.source_session_ids
            else g.source_session_ids ++ [session_id],
          updated_at := env.now,
          access_count := g.access_count + 1 } := by
      unfold mergeUpdate
      rw [if_pos hid, hconf, hocc, hsids, hacc]
    exact this ▸ List.mem_map_of_mem _ hg
  · intro x hx hne
    have : mergeUpdate env existing session_id x = x := by
      unfold mergeUpdate
      rw [if_neg hne]
    exact this ▸ List.mem_map_of_mem _ hx
  · rw [hconf]
    have hle : existing.confidence_score ≤ existing.confidence_score * (6/5) + 1/10 := by
      nlinarith
    exact le_min h1 hle

/-- Witness for C2 at a concrete match: old confidence 0.6 becomes
min(1, 0.6*1.2+0.1) = 0.82, occurrences 2 → 3, session "s2" appended,
access_count 7 → 8, and the stored record's id 3 is returned. -/
theorem global_merge_update_witness :
    save_global_memory envSimW storeSimW "hi" [(1 : ℚ)] (4/5) "semantic" "s2" "u" =
      (some 3,
        { storeSimW with global_memories :=
            storeSimW.global_memories.map (mergeUpdate envSimW simRowW "s2") }) ∧
    { globalW with
      confidence_score := min 1 (globalW.confidence_score * (6/5) + 1/10),
      occurrence_count := globalW.occurrence_count + 1,
      source_session_ids :=
        if "s2" ∈ globalW.source_session_ids then globalW.source_session_ids
        else globalW.source_session_ids ++ ["s2"],
      updated_at := envSimW.now,
      access_count := globalW.access_count + 1 } ∈
      (storeSimW.global_memories.map (mergeUpdate envSimW simRowW "s2")) ∧
    globalW.confidence_score ≤ min 1 (simRowW.confidence_score * (6/5) + 1/10) ∧
    min 1 (simRowW.confidence_score * (6/5) + 1/10) ≤ 1 := by
  have h := global_merge_update envSimW storeSimW "hi" [(1 : ℚ)] (4/5) "semantic"
    "s2" "u" simRowW [] globalW rfl rfl rfl (List.mem_singleton.mpr rfl) rfl rfl rfl
    rfl rfl (by norm_num [simRowW]) (by norm_num [simRowW])
  exact ⟨h.1, h.2.1, h.2.2.2.2.1, h.2.2.2.2.2⟩

/-- Claim C6: `process_and_save_memory` never raises to its caller.  When
the `try` body raises (any `.error` of the embedding or store operations),
the catch converts it to a null return with the store as the exception left
it; in particular each individual failure — embedding, similarity RPC,
global update, global insert, session insert — yields `(none, σ)`. -/
theorem process_and_save_never_raises (env : Env) (σ : Store)
    (memory : MemoryCandidate) (session_id user_id memory_type : String)
    (h0 : 0 ≤ memory.confidence) (h1 : memory.confidence ≤ 1) :
    (∀ σe, memory.worth_saving = true → ¬ memory.confidence < 2/5 →
      psm_body env σ memory session_id user_id memory_type = .error σe →
      process_and_save_memory env σ memory session_id user_id memory_type = (none, σe)) ∧
    (env.embed_fails = true → memory.worth_saving = true → 2/5 ≤ memory.confidence →
      process_and_save_memory env σ memory session_id user_id memory_type = (none, σ)) ∧
    (env.rpc_fails = true → memory.worth_saving = true → 3/5 ≤ memory.confidence →
      env.embed_fails = false →
      process_and_save_memory env σ memory session_id user_id memory_type = (none, σ)) ∧
    (env.global_update_fails = true → memory.worth_saving = true →
      3/5 ≤ memory.confidence → env.embed_fails = false → env.rpc_fails = false →
      (∀ existing rest,
        env.simSearch (env.embed memory.content) user_id memory_type = existing :: rest →
        process_and_save_memory env σ memory session_id user_id memory_type = (none, σ))) ∧
    (env.global_insert_fails = true → memory.worth_saving = true →
      3/5 ≤ memory.confidence → env.embed_fails = false → env.rpc_fails = false →
      env.simSearch (env.embed memory.content) user_id memory_type = [] →
      process_and_save_memory env σ memory session_id user_id memory_type = (none, σ)) ∧
    (env.session_insert_fails = true → memory.worth_saving = true →
      2/5 ≤ memory.confidence → memory.confidence < 3/5 → env.embed_fails = false →
      process_and_save_memory env σ memory session_id user_id memory_type = (none, σ)) := by
  refine ⟨?_, ?_, ?_, ?_, ?_, ?_⟩
  · intro σe hw h40 hbody
    simp [process_and_save_memory, hw, h40, hbody]
  · intro hef hw h40
    have h40' : ¬ memory.confidence < 2/5 := not_lt.mpr h40
    simp [process_and_save_memory, psm_body, embed_text, hw, h40', hef]
  · intro hrf hw h60 hef
    have h40' : ¬ memory.confidence < 2/5 :=
      not_lt.mpr (le_trans (by norm_num) h60)
    simp [process_and_save_memory, psm_body, embed_text, save_global_memory,
      save_global_body, rpc_find_similar, hw, h40', h60, hef, hrf]
  · intro hgu hw h60 hef hrf existing rest hsim
    have h40' : ¬ memory.confidence < 2/5 :=
      not_lt.mpr (le_trans (by norm_num) h60)
    simp [process_and_save_memory, psm_body, embed_text, save_global_memory,
      save_global_body, rpc_find_similar, update_global, hw, h40', h60, hef,
      hrf, hgu, hsim]
  · intro hgi hw h60 hef hrf hsim
    have h40' : ¬ memory.confidence < 2/5 :=
      not_lt.mpr (le_trans (by norm_num) h60)
    simp [process_and_save_memory, psm_body, embed_text, save_global_memory,
      save_global_body, rpc_find_similar, insert_global, hw, h40', h60, hef,
      hrf, hgi, hsim]
  · intro hsf hw h40 h60 hef
    have h40' : ¬ memory.confidence < 2/5 := not_lt.mpr h40
    have h60' : ¬ 3/5 ≤ memory.confidence := not_le.mpr h60
    simp [process_and_save_memory, psm_body, embed_text, save_session_memory,
      save_session_body, insert_session, hw, h40', h60', hef, hsf]

/-- Witness for C6: each failure mode at a concrete candidate returns null
and leaves the store unchanged. -/
theorem process_and_save_never_raises_witness :
    process_and_save_memory envEF emptyStore memGlobW "s" "u" "semantic" =
      (none, emptyStore) ∧
    process_and_save_memory envRF emptyStore memGlobW "s" "u" "semantic" =
      (none, emptyStore) ∧
    process_and_save_memory envGUF storeSimW memGlobW "s" "u" "semantic" =
      (none, storeSimW) ∧
    process_and_save_memory envGIF emptyStore memGlobW "s" "u" "semantic" =
      (none, emptyStore) ∧
    process_and_save_memory envSIF emptyStore memSessW "s" "u" "semantic" =
      (none, emptyStore) := by
  refine ⟨?_, ?_, ?_, ?_, ?_⟩
  · exact (process_and_save_never_raises envEF emptyStore memGlobW "s" "u" "semantic"
      (by norm_num [memGlobW]) (by norm_num [memGlobW])).2.1 rfl rfl
      (by norm_num [memGlobW])
  · exact (process_and_save_never_raises envRF emptyStore memGlobW "s" "u" "semantic"
      (by norm_num [memGlobW]) (by norm_num [memGlobW])).2.2.1 rfl rfl
      (by norm_num [memGlobW]) rfl
  · exact (process_and_save_never_raises envGUF storeSimW memGlobW "s" "u" "semantic"
      (by norm_num [memGlobW]) (by norm_num [memGlobW])).2.2.2.1 rfl rfl
      (by norm_num [memGlobW]) rfl rfl simRowW [] rfl
  · exact (process_and_save_never_raises envGIF emptyStore memGlobW "s" "u" "semantic"
      (by norm_num [memGlobW]) (by norm_num [memGlobW])).2.2.2.2.1 rfl rfl
      (by norm_num [memGlobW]) rfl rfl rfl
  · exact (process_and_save_never_raises envSIF emptyStore memSessW "s" "u" "semantic"
      (by norm_num [memSessW]) (by norm_num [memSessW])).2.2.2.2.2 rfl rfl
      (by norm_num [memSessW]) (by norm_num [memSessW]) rfl

/-! ## Claims about `EpisodicPromoter` -/

/-- Claim C5: a parse failure of the promotion LLM response is fatal to the
attempt: `_promote_to_semantic` returns null and the store is exactly as it
was — no semantic GlobalMemoryRecord is inserted and no tracker is marked
promoted.  (The parse happens before any store write, so the caught
exception leaves the store untouched.) -/
theorem promotion_parse_failure_fatal (env : Env) (σ : Store)
    (tracker_record : TrackerRecord) (user_id : String)
    (h : env.llmResult = none) :
    promote_to_semantic env σ tracker_record user_id = (none, σ) := by
  simp [promote_to_semantic, promote_body, generate_insight, h]

/-- Witness for C5: with a concrete unparseable LLM response, a concrete
promotion attempt returns null and leaves the store unchanged. -/
theorem promotion_parse_failure_fatal_witness :
    promote_to_semantic envLlmF storeSimW ⟨0, "u", "h", [], 1, none⟩ "u" =
      (none, storeSimW) :=
  promotion_parse_failure_fatal envLlmF storeSimW ⟨0, "u", "h", [], 1, none⟩ "u" rfl

/-- First `track_and_promote` call for a pattern with no tracker row yet:
a tracker is inserted with `occurrence_count = 1`, nothing is promoted. -/
theorem tap_new_pattern (env : Env) (σ : Store) (content session_id user_id : String)
    (hq : env.tracker_query_fails = false) (hi : env.tracker_insert_fails = false)
    (hnone : ∀ t ∈ σ.episodic_tracker,
      ¬(t.user_id = user_id ∧ t.pattern_hash = compute_pattern_hash content)) :
    track_and_promote env σ content session_id user_id =
      (none,
        { σ with
          episodic_tracker := σ.episodic_tracker ++
            [{ id := σ.next_id, user_id := user_id,
               pattern_hash := compute_pattern_hash content,
               occurrences := [⟨content, session_id, env.now⟩],
               occurrence_count := 1, promoted_to_semantic_id := none }],
          next_id := σ.next_id + 1 }) := by
  have hfind : σ.episodic_tracker.find?
      (fun t => t.user_id = user_id && t.pattern_hash = compute_pattern_hash content) =
      none := by
    rw [List.find?_eq_none]
    intro t ht
    simp only [Bool.and_eq_true, decide_eq_true_eq]
    exact fun hc => hnone t ht ⟨hc.1, hc.2⟩
  unfold track_and_promote tap_body query_tracker insert_tracker
  simp only [hq, hi, Bool.false_eq_true, if_false, hfind]

/-- The new-occurrence entry appended by `track_and_promote`. -/
def newOcc (content session_id : String) (now : Nat) : Occurrence :=
  ⟨content, session_id, now⟩

/-- A `track_and_promote` call that finds the unpromoted tracker row with
`occurrence_count = 1` for its pattern: the occurrence is appended, the
count reaches 2, and promotion fires — a new semantic global record is
inserted with the occurrences' session ids and count, and the tracker's
`promoted_to_semantic_id` is set to its id.  The call still returns null:
after those writes `_promote_to_semantic` executes `logger.success`, which
raises on the stdlib logger, so the promoted dict is never returned. -/
theorem tap_second_promotes (env : Env) (gm : List GlobalMemoryRecord)
    (sm : List SessionMemoryRecord) (n m : Nat)
    (H : String) (occs : List Occurrence) (content session_id user_id : String)
    (ins : LlmInsight)
    (hq : env.tracker_query_fails = false) (hu : env.tracker_update_fails = false)
    (hef : env.embed_fails = false) (hgi : env.global_insert_fails = false)
    (hllm : env.llmResult = some ins)
    (hH : H = compute_pattern_hash content) :
    track_and_promote env
        ⟨gm, sm, [⟨n, user_id, H, occs, 1, none⟩], m⟩
        content session_id user_id =
      (none,
        ⟨gm ++ [{ id := m, user_id := user_id, memory_type := "semantic",
                  content := ins.insight, embedding := env.embed ins.insight,
                  confidence_score := ins.confidence, worth_saving := true,
                  source_session_ids :=
                    (occs ++ [newOcc content session_id env.now]).map
                      Occurrence.session_id,
                  occurrence_count :=
                    (occs ++ [newOcc content session_id env.now]).length,
                  access_count := 0, updated_at := env.now }],
         sm,
         [⟨n, user_id, H, occs ++ [newOcc content session_id env.now], 2, some m⟩],
         m + 1⟩) := by
  unfold track_and_promote tap_body query_tracker update_tracker_occ
    promote_to_semantic promote_body generate_insight embed_text insert_global
    update_tracker_promoted logger_success pyIdTruthy newOcc
  simp [hq, hu, hef, hgi, hllm, hH]

/-- A `track_and_promote` call that finds an already promoted tracker row
(a truthy `promoted_to_semantic_id`, i.e. a nonzero id): the occurrence is
appended and the count incremented, but no promotion happens — no global
record is inserted and `promoted_to_semantic_id` keeps its value. -/
theorem tap_after_promotion (env : Env) (gm : List GlobalMemoryRecord)
    (sm : List SessionMemoryRecord) (n m p cnt : Nat)
    (H : String) (occs : List Occurrence) (content session_id user_id : String)
    (hq : env.tracker_query_fails = false) (hu : env.tracker_update_fails = false)
    (hH : H = compute_pattern_hash content) (hp : p ≠ 0) :
    track_and_promote env
        ⟨gm, sm, [⟨n, user_id, H, occs, cnt, some p⟩], m⟩
        content session_id user_id =
      (none,
        ⟨gm, sm,
         [⟨n, user_id, H, occs ++ [newOcc content session_id env.now],
           cnt + 1, some p⟩],
         m⟩) := by
  unfold track_and_promote tap_body query_tracker update_tracker_occ
    pyIdTruthy newOcc
  simp [hq, hu, hH, hp]

/-- Claim C3: three successive `track_and_promote` calls with contents
yielding the same pattern hash for the same user, all store and LLM calls
succeeding, starting from a store with no tracker rows: the first call
inserts a tracker with `occurrence_count = 1` and returns null; the second
raises it to 2 and promotes exactly once (one new semantic global record,
`promoted_to_semantic_id` set to its id) — the call itself returns null
because `logger.success` raises after the writes, which persist; the third
raises the count to 3 with no further promotion and
`promoted_to_semantic_id` unchanged. -/
theorem episodic_promotion_exactly_once (env : Env)
    (gm : List GlobalMemoryRecord) (sm : List SessionMemoryRecord) (n : Nat)
    (c1 c2 c3 s1 s2 s3 uid : String) (ins : LlmInsight)
    (hq : env.tracker_query_fails = false)
    (hi : env.tracker_insert_fails = false)
    (hu : env.tracker_update_fails = false)
    (hef : env.embed_fails = false)
    (hgi : env.global_insert_fails = false)
    (hllm : env.llmResult = some ins)
    (hh2 : compute_pattern_hash c2 = compute_pattern_hash c1)
    (hh3 : compute_pattern_hash c3 = compute_pattern_hash c1) :
    track_and_promote env ⟨gm, sm, [], n⟩ c1 s1 uid =
      (none,
        ⟨gm, sm,
         [⟨n, uid, compute_pattern_hash c1, [newOcc c1 s1 env.now], 1, none⟩],
         n + 1⟩) ∧
    track_and_promote env
        ⟨gm, sm,
         [⟨n, uid, compute_pattern_hash c1, [newOcc c1 s1 env.now], 1, none⟩],
         n + 1⟩ c2 s2 uid =
      (none,
        ⟨gm ++ [{ id := n + 1, user_id := uid, memory_type := "semantic",
                  content := ins.insight, embedding := env.embed ins.insight,
                  confidence_score := ins.confidence, worth_saving := true,
                  source_session_ids := [s1, s2], occurrence_count := 2,
                  access_count := 0, updated_at := env.now }],
         sm,
         [⟨n, uid, compute_pattern_hash c1,
           [newOcc c1 s1 env.now, newOcc c2 s2 env.now], 2, some (n + 1)⟩],
         n + 2⟩) ∧
    track_and_promote env
        ⟨gm ++ [{ id := n + 1, user_id := uid, memory_type := "semantic",
                  content := ins.insight, embedding := env.embed ins.insight,
                  confidence_score := ins.confidence, worth_saving := true,
                  source_session_ids := [s1, s2], occurrence_count := 2,
                  access_count := 0, updated_at := env.now }],
         sm,
         [⟨n, uid, compute_pattern_hash c1,
           [newOcc c1 s1 env.now, newOcc c2 s2 env.now], 2, some (n + 1)⟩],
         n + 2⟩ c3 s3 uid =
      (none,
        ⟨gm ++ [{ id := n + 1, user_id := uid, memory_type := "semantic",
                  content := ins.insight, embedding := env.embed ins.insight,
                  confidence_score := ins.confidence, worth_saving := true,
                  source_session_ids := [s1, s2], occurrence_count := 2,
                  access_count := 0, updated_at := env.now }],
         sm,
         [⟨n, uid, compute_pattern_hash c1,
           [newOcc c1 s1 env.now, newOcc c2 s2 env.now, newOcc c3 s3 env.now],
           3, some (n + 1)⟩],
         n + 2⟩) := by
  refine ⟨?_, ?_, ?_⟩
  · have h := tap_new_pattern env ⟨gm, sm, [], n⟩ c1 s1 uid hq hi (by simp)
    simpa using h
  · have h := tap_second_promotes env gm sm n (n + 1) (compute_pattern_hash c1)
      [newOcc c1 s1 env.now] c2 s2 uid ins hq hu hef hgi hllm hh2.symm
    simpa [newOcc] using h
  · have h := tap_after_promotion env
      (gm ++ [{ id := n + 1, user_id := uid, memory_type := "semantic",
                content := ins.insight, embedding := env.embed ins.insight,
                confidence_score := ins.confidence, worth_saving := true,
                source_session_ids := [s1, s2], occurrence_count := 2,
                access_count := 0, updated_at := env.now }])
      sm n (n + 2) (n + 1) 2 (compute_pattern_hash c1)
      [newOcc c1 s1 env.now, newOcc c2 s2 env.now] c3 s3 uid hq hu hh3.symm
      (Nat.succ_ne_zero n)
    simpa using h

/-- Witness for C3: the three calls run concretely with the same content
from an empty store, yielding count 1 / promotion at 2 / count 3 with the
promotion reference unchanged. -/
theorem episodic_promotion_exactly_once_witness :
    track_and_promote envW ⟨[], [], [], 0⟩ "anxious before presentation" "a" "u" =
      (none,
        ⟨[], [],
         [⟨0, "u", compute_pattern_hash "anxious before presentation",
           [newOcc "anxious before presentation" "a" 5], 1, none⟩],
         1⟩) ∧
    track_and_promote envW
        ⟨[], [],
         [⟨0, "u", compute_pattern_hash "anxious before presentation",
           [newOcc "anxious before presentation" "a" 5], 1, none⟩],
         1⟩ "anxious before presentation" "b" "u" =
      (none,
        ⟨[{ id := 1, user_id := "u", memory_type := "semantic",
            content := "pattern insight", embedding := [(1 : ℚ)],
            confidence_score := 7/10, worth_saving := true,
            source_session_ids := ["a", "b"], occurrence_count := 2,
            access_count := 0, updated_at := 5 }],
         [],
         [⟨0, "u", compute_pattern_hash "anxious before presentation",
           [newOcc "anxious before presentation" "a" 5,
            newOcc "anxious before presentation" "b" 5], 2, some 1⟩],
         2⟩) ∧
    track_and_promote envW
        ⟨[{ id := 1, user_id := "u", memory_type := "semantic",
            content := "pattern insight", embedding := [(1 : ℚ)],
            confidence_score := 7/10, worth_saving := true,
            source_session_ids := ["a", "b"], occurrence_count := 2,
            access_count := 0, updated_at := 5 }],
         [],
         [⟨0, "u", compute_pattern_hash "anxious before presentation",
           [newOcc "anxious before presentation" "a" 5,
            newOcc "anxious before presentation" "b" 5], 2, some 1⟩],
         2⟩ "anxious before presentation" "c" "u" =
      (none,
        ⟨[{ id := 1, user_id := "u", memory_type := "semantic",
            content := "pattern insight", embedding := [(1 : ℚ)],
            confidence_score := 7/10, worth_saving := true,
            source_session_ids := ["a", "b"], occurrence_count := 2,
            access_count := 0, updated_at := 5 }],
         [],
         [⟨0, "u", compute_pattern_hash "anxious before presentation",
           [newOcc "anxious before presentation" "a" 5,
            newOcc "anxious before presentation" "b" 5,
            newOcc "anxious before presentation" "c" 5], 3, some 1⟩],
         2⟩) := by
  have h := episodic_promotion_exactly_once envW [] [] 0
    "anxious before presentation" "anxious before presentation"
    "anxious before presentation" "a" "b" "c" "u" ⟨"pattern insight", 7/10⟩
    rfl rfl rfl rfl rfl rfl rfl rfl
  exact h

/-! ## Claims about `compute_pattern_hash` -/

theorem charListLe_total : ∀ a b : List Char,
    charListLe a b = true ∨ charListLe b a = true := by
  intro a
  induction a with
  | nil => intro b; left; rfl
  | cons c cs ih =>
    intro b
    cases b with
    | nil => right; rfl
    | cons d ds =>
      rcases Nat.lt_trichotomy c.toNat d.toNat with h | h | h
      · left; simp [charListLe, h]
      · have h1 : ¬ c.toNat < d.toNat := by omega
        have h2 : ¬ d.toNat < c.toNat := by omega
        rcases ih ds with hcs | hds
        · left; simp [charListLe, h1, h2, hcs]
        · right; simp [charListLe, h1, h2, hds]
      · right; simp [charListLe, h]

theorem charListLe_trans : ∀ a b c : List Char,
    charListLe a b = true → charListLe b c = true → charListLe a c = true := by
  intro a
  induction a with
  | nil => intro b c _ _; rfl
  | cons x xs ih =>
    intro b c hab hbc
    cases b with
    | nil => simp [charListLe] at hab
    | cons y ys =>
      cases c with
      | nil => simp [charListLe] at hbc
      | cons z zs =>
        simp only [charListLe] at hab hbc ⊢
        split at hab
        · rename_i hxy
          split at hbc
          · rename_i hyz
            have : x.toNat < z.toNat := by omega
            simp [this]
          · split at hbc
            · simp at hbc
            · rename_i hyz hzy
              have : x.toNat < z.toNat := by omega
              simp [this]
        · split at hab
          · simp at hab
          · rename_i hxy hyx
            have hxy' : x.toNat = y.toNat := by omega
            split at hbc
            · rename_i hyz
              have : x.toNat < z.toNat := by omega
              simp [this]
            · split at hbc
              · simp at hbc
              · rename_i hyz hzy
                have hyz' : y.toNat = z.toNat := by omega
                have h1 : ¬ x.toNat < z.toNat := by omega
                have h2 : ¬ z.toNat < x.toNat := by omega
                simp only [h1, h2, if_false]
                exact ih ys zs hab hbc

theorem charListLe_antisymm : ∀ a b : List Char,
    charListLe a b = true → charListLe b a = true → a = b := by
  intro a
  induction a with
  | nil =>
    intro b _ hba
    cases b with
    | nil => rfl
    | cons d ds => simp [charListLe] at hba
  | cons c cs ih =>
    intro b hab hba
    cases b with
    | nil => simp [charListLe] at hab
    | cons d ds =>
      simp only [charListLe] at hab hba
      by_cases h1 : c.toNat < d.toNat
      · rw [if_neg (by omega), if_pos h1] at hba
        simp at hba
      · by_cases h2 : d.toNat < c.toNat
        · rw [if_neg h1, if_pos h2] at hab
          simp at hab
        · rw [if_neg h1, if_neg h2] at hab
          rw [if_neg h2, if_neg h1] at hba
          have hcd' : c.toNat = d.toNat := by omega
          have hc : c = d := Char.ext (UInt32.toNat.inj hcd')
          rw [hc, ih ds hab hba]

instance : IsTotal String strLe :=
  ⟨fun a b => charListLe_total a.data b.data⟩

instance : IsTrans String strLe :=
  ⟨fun a b c hab hbc => charListLe_trans a.data b.data c.data hab hbc⟩

instance : IsAntisymm String strLe :=
  ⟨fun a b hab hba => by
    cases a with
    | mk da =>
      cases b with
      | mk db => exact congrArg String.mk (charListLe_antisymm da db hab hba)⟩

/-- `pySorted` depends only on the multiset of its input: two permuted
lists sort to the same list (both results are sorted permutations of the
same multiset, and the order is total and antisymmetric). -/
theorem pySorted_eq_of_perm {l1 l2 : List String} (h : l1.Perm l2) :
    pySorted l1 = pySorted l2 :=
  List.eq_of_perm_of_sorted
    ((List.perm_insertionSort strLe l1).trans
      (h.trans (List.perm_insertionSort strLe l2).symm))
    (List.sorted_insertionSort strLe l1)
    (List.sorted_insertionSort strLe l2)

/-- Counterexample to the concrete example in claim C4: the two spec
contents do NOT share a hash.  "before" (length 6, alphabetic) qualifies in
the first content but does not occur in the second, so the keyword lists
differ and the truncated MD5 digests differ. -/
theorem pattern_hash_example_differs :
    patternQualifying "I felt very Anxious before Presentation" =
      ["anxious", "before", "presentation"] ∧
    patternQualifying "presentation anxious very felt i" =
      ["presentation", "anxious"] ∧
    compute_pattern_hash "I felt very Anxious before Presentation" ≠
      compute_pattern_hash "presentation anxious very felt i" := by
  refine ⟨by decide, by decide, by decide⟩

/-- Claim C4 (amended): `compute_pattern_hash` lowercases, keeps alphabetic
words of length > 4, takes the first 5 in document order, sorts, joins with
underscore and truncates the MD5 hex digest to 16 characters; hence the
hash is invariant to word order and case whenever the two contents have the
same multiset of qualifying words and at most 5 of them.  The spec's pair
is corrected to one with equal keyword multisets ("before" restored):
"I felt very Anxious before Presentation" vs
"Presentation before ANXIOUS felt i very". -/
theorem pattern_hash_order_case_invariant (c1 c2 : String)
    (hperm : (patternQualifying c1).Perm (patternQualifying c2))
    (hlen : (patternQualifying c1).length ≤ 5) :
    compute_pattern_hash c1 = compute_pattern_hash c2 ∧
    compute_pattern_hash "I felt very Anxious before Presentation" =
      compute_pattern_hash "Presentation before ANXIOUS felt i very" := by
  constructor
  · have hlen2 : (patternQualifying c2).length ≤ 5 := hperm.length_eq ▸ hlen
    have hk1 : patternKeywords c1 = patternQualifying c1 :=
      List.take_of_length_le hlen
    have hk2 : patternKeywords c2 = patternQualifying c2 :=
      List.take_of_length_le hlen2
    unfold compute_pattern_hash keywordsStr
    rw [hk1, hk2, pySorted_eq_of_perm hperm]
  · decide

/-- Witness for the amended C4: the corrected pair has permuted qualifying
keyword lists of length 3, and the theorem yields their hash equality. -/
theorem pattern_hash_order_case_invariant_witness :
    (patternQualifying "I felt very Anxious before Presentation").Perm
      (patternQualifying "Presentation before ANXIOUS felt i very") ∧
    compute_pattern_hash "I felt very Anxious before Presentation" =
      compute_pattern_hash "Presentation before ANXIOUS felt i very" := by
  have h := pattern_hash_order_case_invariant
    "I felt very Anxious before Presentation"
    "Presentation before ANXIOUS felt i very"
    (by decide) (by decide)
  exact ⟨by decide, h.1⟩

/-- Claim C10: any two contents with no qualifying word (no whitespace-
separated, all-alphabetic word longer than 4 characters) hash to the same
16-hex-character value — the truncated MD5 of the empty keyword string,
"d41d8cd98f00b204" — so such episodic memories are tracked under one
(user, pattern_hash) tracker row and can jointly trigger promotion: with
the store and LLM calls succeeding, tracking the first content and then the
second from an empty tracker table promotes on the second call — the store
then holds the new semantic global record and the tracker is marked
promoted (the promoting call itself returns null, since `logger.success`
raises after those writes). -/
theorem no_keyword_hash_collision (c1 c2 : String)
    (h1 : patternQualifying c1 = []) (h2 : patternQualifying c2 = []) :
    compute_pattern_hash c1 = "d41d8cd98f00b204" ∧
    compute_pattern_hash c2 = compute_pattern_hash c1 ∧
    (∀ (env : Env) (gm : List GlobalMemoryRecord) (sm : List SessionMemoryRecord)
        (n : Nat) (s1 s2 uid : String) (ins : LlmInsight),
      env.tracker_query_fails = false → env.tracker_insert_fails = false →
      env.tracker_update_fails = false → env.embed_fails = false →
      env.global_insert_fails = false → env.llmResult = some ins →
      (track_and_promote env
          (track_and_promote env ⟨gm, sm, [], n⟩ c1 s1 uid).2 c2 s2 uid).2 =
        ⟨gm ++ [{ id := n + 1, user_id := uid, memory_type := "semantic",
                  content := ins.insight, embedding := env.embed ins.insight,
                  confidence_score := ins.confidence, worth_saving := true,
                  source_session_ids := [s1, s2], occurrence_count := 2,
                  access_count := 0, updated_at := env.now }],
         sm,
         [⟨n, uid, compute_pattern_hash c1,
           [newOcc c1 s1 env.now, newOcc c2 s2 env.now], 2, some (n + 1)⟩],
         n + 2⟩) := by
  have e1 : compute_pattern_hash c1 = strTake (md5Hex "") 16 := by
    unfold compute_pattern_hash keywordsStr patternKeywords pySorted
    rw [h1]
    decide
  have e2 : compute_pattern_hash c2 = strTake (md5Hex "") 16 := by
    unfold compute_pattern_hash keywordsStr patternKeywords pySorted
    rw [h2]
    decide
  have econst : strTake (md5Hex "") 16 = "d41d8cd98f00b204" := by decide
  refine ⟨e1.trans econst, e2.trans e1.symm, ?_⟩
  intro env gm sm n s1 s2 uid ins hq hi hu hef hgi hllm
  have hcall1 := tap_new_pattern env ⟨gm, sm, [], n⟩ c1 s1 uid hq hi (by simp)
  have hcall2 := tap_second_promotes env gm sm n (n + 1) (compute_pattern_hash c1)
    [newOcc c1 s1 env.now] c2 s2 uid ins hq hu hef hgi hllm
    (e1.trans e2.symm)
  have hcall1x : track_and_promote env ⟨gm, sm, [], n⟩ c1 s1 uid =
      (none,
        ⟨gm, sm,
         [⟨n, uid, compute_pattern_hash c1, [newOcc c1 s1 env.now], 1, none⟩],
         n + 1⟩) := by
    simpa [newOcc] using hcall1
  rw [hcall1x, hcall2]
  simp [newOcc]

/-- Witness for C10: two concrete contents with no qualifying word — an
empty string and a string of short or non-alphabetic words — share the
constant hash, and the second concrete tracking call promotes: the store
ends up holding the semantic record and the promoted tracker. -/
theorem no_keyword_hash_collision_witness :
    compute_pattern_hash "" = "d41d8cd98f00b204" ∧
    compute_pattern_hash "i am so sad 1234 a-b" = compute_pattern_hash "" ∧
    (track_and_promote envW
        (track_and_promote envW ⟨[], [], [], 0⟩ "" "a" "u").2
        "i am so sad 1234 a-b" "b" "u").2 =
      ⟨[{ id := 1, user_id := "u", memory_type := "semantic",
          content := "pattern insight", embedding := [(1 : ℚ)],
          confidence_score := 7/10, worth_saving := true,
          source_session_ids := ["a", "b"], occurrence_count := 2,
          access_count := 0, updated_at := 5 }],
       [],
       [⟨0, "u", compute_pattern_hash "",
         [newOcc "" "a" 5, newOcc "i am so sad 1234 a-b" "b" 5], 2, some 1⟩],
       2⟩ := by
  have h := no_keyword_hash_collision "" "i am so sad 1234 a-b"
    (by decide) (by decide)
  exact ⟨h.1, h.2.1, h.2.2 envW [] [] 0 "a" "b" "u" ⟨"pattern insight", 7/10⟩
    rfl rfl rfl rfl rfl rfl⟩
